import Mathlib

/-!
Shallow embedding of the generation-and-build orchestration engine of the
CodeCraft-AI repository (backend), together with theorems settling the
frozen claims about it.

The definitions below are translated from the Python source files:
  * backend/app.py           (admission, worker, cancel, status, reaper, build)
  * backend/apk_deployment.py (the two ordered error classifiers)
  * backend/android_generator.py (language handling in generate_from_idea)
  * backend/config.py        (configuration constants)
Definitions named like the source keep the source behaviour; definitions
prefixed with `spec` render the specification text, for refinement
comparisons.
-/

/-! ## Python string primitives

Small executable models of the Python string operations the backend uses:
`in` (substring test), `lower`, `strip`/`rstrip`, `split('\n')`,
`startswith`, slicing.  Inputs in this code base are ASCII, where
`Char.toLower` agrees with Python `str.lower`.
-/

/-- Characters removed by Python `str.strip()` / `str.rstrip()`. -/
def pySpace (c : Char) : Bool :=
  c = ' ' || c = '\t' || c = '\n' || c = '\r' || c = '\x0b' || c = '\x0c'

/-- Python `s.lower()` (ASCII-faithful). -/
def pyLower (s : String) : String := ⟨s.data.map Char.toLower⟩

/-- Strip leading and trailing whitespace from a character list. -/
def pyStripList (l : List Char) : List Char :=
  ((l.dropWhile pySpace).reverse.dropWhile pySpace).reverse

/-- Python `s.strip()`. -/
def pyStrip (s : String) : String := ⟨pyStripList s.data⟩

/-- Right-strip only, as in Python `s.rstrip()`. -/
def pyRstrip (l : List Char) : List Char := (l.reverse.dropWhile pySpace).reverse

/-- Substring test on character lists: does `pat` occur contiguously in the list? -/
def containsSubList (pat : List Char) : List Char → Bool
  | [] => pat.isEmpty
  | c :: t => pat.isPrefixOf (c :: t) || containsSubList pat t

/-- Python `pat in s` for strings. -/
def pyIn (pat s : String) : Bool := containsSubList pat.data s.data

/-- Python `s[:n]` for strings. -/
def takeChars (n : Nat) (s : String) : String := ⟨s.data.take n⟩

/-- Split a character list at newline characters; the accumulator holds the
current line reversed. -/
def splitLinesAux (cur : List Char) : List Char → List (List Char)
  | [] => [cur.reverse]
  | c :: t => if c = '\n' then cur.reverse :: splitLinesAux [] t else splitLinesAux (c :: cur) t

/-- Python `s.split('\n')`. -/
def pySplitNl (s : String) : List String := (splitLinesAux [] s.data).map String.mk

/-- Python `s.startswith (pre)`. -/
def pyStartsWith (pre s : String) : Bool := pre.data.isPrefixOf s.data

/-- The last `n` elements of a list, as in Python `l[-n:]`. -/
def lastN (n : Nat) (l : List α) : List α := l.drop (l.length - n)

/-! ## Build-failure classifier

Translated from `APKDeploymentSystem._analyze_gradle_error`
(backend/apk_deployment.py, lines 113-160): a chain of substring tests over
the lowercased concatenation `stderr + stdout`, with a line-scanning
fallback over the last ten lines of `stderr`.
-/

/-- Fallback scan of `_analyze_gradle_error`: the first line that is
non-empty after stripping, does not start with `>`, and is longer than 10
characters, returned stripped with a `Build failed: ` label. -/
def gradleFallbackScan : List String → Option String
  | [] => none
  | l :: ls =>
    if pyStrip l ≠ "" ∧ pyStartsWith ">" l = false ∧ 10 < l.length then
      some ("Build failed: " ++ pyStrip l)
    else gradleFallbackScan ls

/-- Generic message of the build classifier when no rule and no line matches. -/
def gradleGenericMsg : String :=
  "APK build failed. Check the detailed error logs above for more information."

/-- The no-rule-matched fallback of `_analyze_gradle_error`: scan the last
ten lines of stripped `stderr`. -/
def gradleFallback (stderr _stdout : String) : String :=
  if pyStrip stderr ≠ "" then
    match gradleFallbackScan (lastN 10 (pySplitNl (pyStrip stderr))) with
    | some m => m
    | none => gradleGenericMsg
  else gradleGenericMsg

/-- Classifier of Gradle build failures, translated if-chain by if-chain
from `_analyze_gradle_error (stderr, stdout)`. -/
def analyzeGradleError (stderr stdout : String) : String :=
  let errorText := pyLower (stderr ++ stdout)
  if pyIn "java_home" errorText then
    "Java JDK not found or JAVA_HOME not set. Please install Java JDK 11+ and set JAVA_HOME."
  else if pyIn "android_home" errorText || pyIn "android sdk" errorText then
    "Android SDK not found. Please install Android SDK and set ANDROID_HOME."
  else if pyIn "gradle wrapper" errorText || pyIn "gradlew" errorText then
    "Gradle wrapper issue. Try running gradlew.bat manually to see detailed errors."
  else if pyIn "compile" errorText && pyIn "error" errorText then
    "Compilation error. Check your Java/Kotlin code for syntax errors."
  else if pyIn "manifest" errorText then
    "AndroidManifest.xml error. Check manifest file for invalid configurations."
  else if pyIn "resources" errorText && pyIn "error" errorText then
    "Resource error. Check drawable/layout/values files for issues."
  else if pyIn "dependency" errorText && pyIn "not found" errorText then
    "Dependency resolution failed. Check internet connection and repository access."
  else if pyIn "license" errorText || pyIn "accept" errorText then
    "Android SDK license not accepted. Run \"sdkmanager --licenses\" to accept licenses."
  else if pyIn "permission denied" errorText || pyIn "access denied" errorText then
    "Permission error. Ensure the project directory has write permissions."
  else if pyIn "out of memory" errorText || pyIn "heap space" errorText then
    "Out of memory. Try increasing JVM heap size or closing other applications."
  else if pyIn "timeout" errorText then
    "Build timeout. The build process is taking too long. Try building in smaller steps."
  else gradleFallback stderr stdout

/-! ## Installation-failure classifier

Translated from `APKDeploymentSystem._analyze_adb_error`
(backend/apk_deployment.py, lines 162-207).
-/

/-- Fallback scan of `_analyze_adb_error`: the first line whose lowercase
form contains `failure` or `error`, returned stripped with an
`Installation failed: ` label. -/
def adbFallbackScan : List String → Option String
  | [] => none
  | l :: ls =>
    if pyIn "failure" (pyLower l) || pyIn "error" (pyLower l) then
      some ("Installation failed: " ++ pyStrip l)
    else adbFallbackScan ls

/-- Generic message of the install classifier when nothing matches. -/
def adbGenericMsg : String :=
  "APK installation failed. Check device storage, USB connection, and try again."

/-- The no-rule-matched fallback of `_analyze_adb_error`: scan all lines of
stripped `stderr`. -/
def adbFallback (stderr _stdout : String) : String :=
  if pyStrip stderr ≠ "" then
    match adbFallbackScan (pySplitNl (pyStrip stderr)) with
    | some m => m
    | none => adbGenericMsg
  else adbGenericMsg

/-- Classifier of adb installation failures, translated if-chain by
if-chain from `_analyze_adb_error (stderr, stdout)`. -/
def analyzeAdbError (stderr stdout : String) : String :=
  let errorText := pyLower (stderr ++ stdout)
  if pyIn "device offline" errorText || pyIn "device not found" errorText then
    "Device went offline. Reconnect USB cable and ensure USB debugging is enabled."
  else if pyIn "insufficient storage" errorText || pyIn "no space" errorText then
    "Insufficient storage on device. Free up space and try again."
  else if pyIn "install_failed_version_downgrade" errorText then
    "Version downgrade not allowed. Uninstall the existing app first or use a higher version code."
  else if pyIn "install_failed_update_incompatible" errorText then
    "Update incompatible. Uninstall the existing app and try again."
  else if pyIn "install_failed_missing_shared_library" errorText then
    "Missing shared library. The app requires additional libraries that are not available."
  else if pyIn "install_failed_cpu_abi_incompatible" errorText then
    "CPU ABI incompatible. The APK is not compatible with your device architecture."
  else if pyIn "install_failed_invalid_apk" errorText then
    "Invalid APK file. The APK may be corrupted. Try rebuilding."
  else if pyIn "install_failed_older_sdk" errorText then
    "Device runs older Android version. Update your device or lower minSdkVersion."
  else if pyIn "install_failed_newer_sdk" errorText then
    "APK requires newer Android version. Update your device."
  else if pyIn "security" errorText || pyIn "blocked" errorText then
    "Installation blocked by security policy. Enable \"Install unknown apps\" for this source."
  else if pyIn "timeout" errorText then
    "Installation timed out. Device may be slow or unresponsive."
  else adbFallback stderr stdout

/-! ## Ordered rule tables

An explicit (predicate, message) list evaluated first-match-wins, the
presentation the specification uses for both classifiers.
-/

/-- Evaluate an ordered rule table over the lowercased `stderr ++ stdout`,
first match wins, otherwise the fallback function. -/
def classifyByRules : List ((String → Bool) × String) → (String → String → String) → String → String → String
  | [], fb, se, so => fb se so
  | (p, m) :: rs, fb, se, so =>
    if p (pyLower (se ++ so)) then m else classifyByRules rs fb se so

/-- The build classifier rule table in the order the code evaluates it:
environment, SDK, gradle wrapper, compile, manifest, resources,
dependency, license, permission, out-of-memory, timeout. -/
def gradleRules : List ((String → Bool) × String) :=
  [ (fun t => pyIn "java_home" t,
     "Java JDK not found or JAVA_HOME not set. Please install Java JDK 11+ and set JAVA_HOME."),
    (fun t => pyIn "android_home" t || pyIn "android sdk" t,
     "Android SDK not found. Please install Android SDK and set ANDROID_HOME."),
    (fun t => pyIn "gradle wrapper" t || pyIn "gradlew" t,
     "Gradle wrapper issue. Try running gradlew.bat manually to see detailed errors."),
    (fun t => pyIn "compile" t && pyIn "error" t,
     "Compilation error. Check your Java/Kotlin code for syntax errors."),
    (fun t => pyIn "manifest" t,
     "AndroidManifest.xml error. Check manifest file for invalid configurations."),
    (fun t => pyIn "resources" t && pyIn "error" t,
     "Resource error. Check drawable/layout/values files for issues."),
    (fun t => pyIn "dependency" t && pyIn "not found" t,
     "Dependency resolution failed. Check internet connection and repository access."),
    (fun t => pyIn "license" t || pyIn "accept" t,
     "Android SDK license not accepted. Run \"sdkmanager --licenses\" to accept licenses."),
    (fun t => pyIn "permission denied" t || pyIn "access denied" t,
     "Permission error. Ensure the project directory has write permissions."),
    (fun t => pyIn "out of memory" t || pyIn "heap space" t,
     "Out of memory. Try increasing JVM heap size or closing other applications."),
    (fun t => pyIn "timeout" t,
     "Build timeout. The build process is taking too long. Try building in smaller steps.") ]

/-- The build classifier rule table in the order the specification claims:
environment, SDK, license, compile, manifest (descriptor), resources,
dependency, permission, out-of-memory, timeout — license third, and no
gradle-wrapper rule. -/
def specGradleRules : List ((String → Bool) × String) :=
  [ (fun t => pyIn "java_home" t,
     "Java JDK not found or JAVA_HOME not set. Please install Java JDK 11+ and set JAVA_HOME."),
    (fun t => pyIn "android_home" t || pyIn "android sdk" t,
     "Android SDK not found. Please install Android SDK and set ANDROID_HOME."),
    (fun t => pyIn "license" t || pyIn "accept" t,
     "Android SDK license not accepted. Run \"sdkmanager --licenses\" to accept licenses."),
    (fun t => pyIn "compile" t && pyIn "error" t,
     "Compilation error. Check your Java/Kotlin code for syntax errors."),
    (fun t => pyIn "manifest" t,
     "AndroidManifest.xml error. Check manifest file for invalid configurations."),
    (fun t => pyIn "resources" t && pyIn "error" t,
     "Resource error. Check drawable/layout/values files for issues."),
    (fun t => pyIn "dependency" t && pyIn "not found" t,
     "Dependency resolution failed. Check internet connection and repository access."),
    (fun t => pyIn "permission denied" t || pyIn "access denied" t,
     "Permission error. Ensure the project directory has write permissions."),
    (fun t => pyIn "out of memory" t || pyIn "heap space" t,
     "Out of memory. Try increasing JVM heap size or closing other applications."),
    (fun t => pyIn "timeout" t,
     "Build timeout. The build process is taking too long. Try building in smaller steps.") ]

/-- The install classifier rule table, in the order the code (and the
specification) evaluates it. -/
def adbRules : List ((String → Bool) × String) :=
  [ (fun t => pyIn "device offline" t || pyIn "device not found" t,
     "Device went offline. Reconnect USB cable and ensure USB debugging is enabled."),
    (fun t => pyIn "insufficient storage" t || pyIn "no space" t,
     "Insufficient storage on device. Free up space and try again."),
    (fun t => pyIn "install_failed_version_downgrade" t,
     "Version downgrade not allowed. Uninstall the existing app first or use a higher version code."),
    (fun t => pyIn "install_failed_update_incompatible" t,
     "Update incompatible. Uninstall the existing app and try again."),
    (fun t => pyIn "install_failed_missing_shared_library" t,
     "Missing shared library. The app requires additional libraries that are not available."),
    (fun t => pyIn "install_failed_cpu_abi_incompatible" t,
     "CPU ABI incompatible. The APK is not compatible with your device architecture."),
    (fun t => pyIn "install_failed_invalid_apk" t,
     "Invalid APK file. The APK may be corrupted. Try rebuilding."),
    (fun t => pyIn "install_failed_older_sdk" t,
     "Device runs older Android version. Update your device or lower minSdkVersion."),
    (fun t => pyIn "install_failed_newer_sdk" t,
     "APK requires newer Android version. Update your device."),
    (fun t => pyIn "security" t || pyIn "blocked" t,
     "Installation blocked by security policy. Enable \"Install unknown apps\" for this source."),
    (fun t => pyIn "timeout" t,
     "Installation timed out. Device may be slow or unresponsive.") ]

/-! ## Input validation

Translated from `validate_app_input (data)` (backend/app.py, lines
236-255).  A request carries optional fields; `data.get (k, d)` is
`Option.getD`.
-/

/-- The fields of a generation request body that validation inspects. -/
structure GenRequest where
  idea : Option String
  language : Option String
  theme : Option String
deriving DecidableEq, Repr

/-- Validation from `validate_app_input`: collects Turkish error messages
for a missing/short/long idea, an unknown language, an unknown theme. -/
def validateAppInput (data : GenRequest) : List String :=
  let idea := pyStrip (data.idea.getD "")
  let e1 : List String :=
    if idea = "" then ["Uygulama fikri gerekli"]
    else if idea.length < 10 then ["Uygulama fikri en az 10 karakter olmalı"]
    else if 1000 < idea.length then ["Uygulama fikri en fazla 1000 karakter olmalı"]
    else []
  let language := pyLower (data.language.getD "java")
  let e2 : List String :=
    if language ∈ (["java", "kotlin"] : List String) then [] else ["Geçersiz programlama dili"]
  let theme := pyLower (data.theme.getD "light")
  let e3 : List String :=
    if theme ∈ (["light", "dark", "auto"] : List String) then [] else ["Geçersiz tema"]
  e1 ++ e2 ++ e3

/-! ## Artifact path derivation

Translated from `generate_app` (backend/app.py, lines 424-430): the folder
name is the sanitized app name joined with the first eight characters of
the job id, or the full id when the sanitized name is empty.
-/

/-- Storage root, `Config.PROJECT_STORAGE_PATH` (backend/config.py line 75). -/
def PROJECT_STORAGE_PATH : String := "generated_apps"

/-- Sanitized app name: keep alphanumerics, space, dash, underscore, then
right-strip, as in `generate_app` line 428. -/
def safeAppName (appName : String) : String :=
  ⟨pyRstrip (appName.data.filter (fun c => c.isAlphanum || c = ' ' || c = '-' || c = '_'))⟩

/-- Folder name of the artifact, `generate_app` line 429. -/
def folderName (appName projectId : String) : String :=
  if safeAppName appName ≠ "" then safeAppName appName ++ "_" ++ takeChars 8 projectId
  else projectId

/-- Artifact directory path derived at submission, `generate_app` line 430. -/
def projectPathOf (appName projectId : String) : String :=
  PROJECT_STORAGE_PATH ++ "/" ++ folderName appName projectId

/-! ## Generator language handling

Translated from `AndroidAppGenerator.generate_from_idea`
(backend/android_generator.py, lines 94-132).  Only the language plumbing
matters to the claims: a requested `kotlin` is replaced by `java` before
`create_project_structure` is called, and the returned dictionary reports
the replaced language.
-/

/-- The fields of the `generate_from_idea` return value the claims inspect,
plus the language put into the `config` handed to file creation. -/
structure GenIdeaResult where
  app_name : String
  project_path : String
  language : String
  architecture : String
  ui_framework : String
  configLanguage : String
deriving DecidableEq, Repr

/-- Language plumbing of `generate_from_idea`: the replacement at lines
104-107 happens before any file is created, and both the `config` passed to
`create_project_structure` and the returned dictionary carry the replaced
value. -/
def generateFromIdea (analysisName language architecture uiFramework projectPath : String) :
    GenIdeaResult :=
  let language := if language = "kotlin" then "java" else language
  { app_name := analysisName
    project_path := projectPath
    language := language
    architecture := architecture
    ui_framework := uiFramework
    configLanguage := language }

/-! ## Build executor

Translated from `build_apk (project_path)` (backend/app.py, lines
1001-1035).  The external toolchain is abstracted into an environment:
whether `gradlew.bat` exists, and, if the process is spawned, either a
completed run (return code, whether the output APK file exists afterwards)
or `none` for a timeout / raised exception.
-/

/-- Abstract outcome of the external Gradle invocation. -/
structure BuildEnv where
  gradlewExists : Bool
  run : Option (Int × Bool)
deriving DecidableEq, Repr

/-- The boolean result of `build_apk`: `true` only when the wrapper exists,
the process exits 0, and the APK file is present afterwards; in every other
branch (missing wrapper, non-zero exit, missing APK, timeout, exception)
the function returns `false`. -/
def build_apk (env : BuildEnv) : Bool :=
  if env.gradlewExists then
    match env.run with
    | some (rc, apkThere) => if rc = 0 then (if apkThere then true else false) else false
    | none => false
  else false


/-! ## Job records and the worker

Translated from `generate_app_async` (backend/app.py, lines 504-642): the
worker walks the `steps` list (eight status/progress checkpoints), then
sets `building_apk`/96, then completes with the result payload.  Statuses
are the exact strings the code stores, as an enumeration.
-/

/-- Job status values stored in `project_status [...] ['status']`. -/
inductive PStatus
  | queued
  | analyzing
  | planning
  | generating_structure
  | generating_ui
  | generating_logic
  | integrating_features
  | building
  | finalizing
  | building_apk
  | completed
  | error
  | cancelled
deriving DecidableEq, Repr

/-- The terminal statuses: completed, error (the code's Failed), cancelled. -/
def PStatus.isTerminal : PStatus → Bool
  | .completed => true
  | .error => true
  | .cancelled => true
  | _ => false

/-- The slice of a `project_status` entry the claims are about, plus the
worker position `pc` (how many of the worker's eleven updates have run). -/
structure JobRec where
  status : PStatus
  progress : Nat
  createdAt : Nat
  apkReady : Option Bool
  apkPath : Option String
  projectPath : Option String
  pc : Nat
deriving DecidableEq, Repr

/-- A freshly admitted job record: `status = queued`, `progress = 0`
(`generate_app` lines 447-464). -/
def mkJob (t : Nat) : JobRec :=
  { status := .queued, progress := 0, createdAt := t,
    apkReady := none, apkPath := none, projectPath := none, pc := 0 }

/-- The `steps` checkpoint list of `generate_app_async` (lines 506-515)
followed by the `building_apk`/96 update (lines 538-542), in execution
order. -/
def stageUpdates : List (PStatus × Nat) :=
  [(.analyzing, 15), (.planning, 25), (.generating_structure, 40), (.generating_ui, 55),
   (.generating_logic, 70), (.integrating_features, 85), (.building, 95), (.finalizing, 98),
   (.building_apk, 96)]

/-- One worker update: checkpoints 0-8 set status and progress from
`stageUpdates`; update 9 is the completion write (lines 557-624) carrying
the result payload — `apkReady` is the build flag, `apkPath` is set only on
a successful build, `projectPath` is always delivered. -/
def applyWork (b : Bool) (pp : String) (r : JobRec) : JobRec :=
  if r.pc < 9 then
    let u := stageUpdates.getD r.pc (.completed, 100)
    { r with status := u.1, progress := u.2, pc := r.pc + 1 }
  else if r.pc = 9 then
    { r with
        status := .completed
        progress := 100
        pc := 10
        apkReady := some b
        apkPath := if b then some (pp ++ "/app/build/outputs/apk/debug/app-debug.apk") else none
        projectPath := some pp }
  else r

/-- The states of a value iterated `n` times under `f`, starting value
included. -/
def iterApply (f : α → α) : Nat → α → List α
  | 0, a => [a]
  | n + 1, a => a :: iterApply f n (f a)

/-- Iterate a function `n` times. -/
def applyN (f : α → α) : Nat → α → α
  | 0, a => a
  | n + 1, a => applyN f n (f a)

/-- The status sequence a poller sees across one uninterrupted worker run:
the initial record's status followed by the status after each of the ten
updates. -/
def workerStatusSeq (b : Bool) (pp : String) (r : JobRec) : List PStatus :=
  (iterApply (applyWork b pp) 10 r).map (·.status)

/-- The record after a full uninterrupted worker run. -/
def runWorker (b : Bool) (pp : String) (r : JobRec) : JobRec :=
  applyN (applyWork b pp) 10 r

/-- Check that consecutive statuses are non-decreasing under a rank
function. -/
def ranksNonDecreasing (f : PStatus → Nat) : List PStatus → Bool
  | [] => true
  | [_] => true
  | a :: b :: t => decide (f a ≤ f b) && ranksNonDecreasing f (b :: t)

/-- Stage order as the claim lists it: Building, BuildingArtifact,
Finalizing, Completed. -/
def specRank : PStatus → Nat
  | .queued => 0
  | .analyzing => 1
  | .planning => 2
  | .generating_structure => 3
  | .generating_ui => 4
  | .generating_logic => 5
  | .integrating_features => 6
  | .building => 7
  | .building_apk => 8
  | .finalizing => 9
  | .completed => 10
  | .error => 11
  | .cancelled => 12

/-- Stage order as the code executes it: Building, Finalizing,
BuildingArtifact, Completed. -/
def codeRank : PStatus → Nat
  | .queued => 0
  | .analyzing => 1
  | .planning => 2
  | .generating_structure => 3
  | .generating_ui => 4
  | .generating_logic => 5
  | .integrating_features => 6
  | .building => 7
  | .finalizing => 8
  | .building_apk => 9
  | .completed => 10
  | .error => 11
  | .cancelled => 12

/-! ## The shared store, cancel, and the reaper

`project_status` is a dict keyed by job id (an association list here, keys
unique in the code since ids are fresh UUIDs), `active_generations` the
active set, and the artifact directories a set of path strings.
-/

/-- The server state the lifecycle claims touch. -/
structure Cfg where
  store : List (String × JobRec)
  active : List String
  dirs : List String
deriving DecidableEq, Repr

/-- Point update setting one record's status to cancelled, the effect of
`project_status [project_id].update (status := cancelled)`. -/
def setStatusCancelled : List (String × JobRec) → String → List (String × JobRec)
  | [], _ => []
  | (i, r) :: t, id =>
    if i = id then (i, { r with status := .cancelled }) :: t
    else (i, r) :: setStatusCancelled t id

/-- Translated from `cancel_generation` (backend/app.py, lines 658-673):
if the id is known, set its status to cancelled — with no check of the
current status — and drop it from the active set, answering success;
otherwise answer not-found (`false` here, the 404 branch). -/
def cancelStep (cfg : Cfg) (id : String) : Bool × Cfg :=
  if (cfg.store.lookup id).isSome then
    (true,
     { cfg with
        store := setStatusCancelled cfg.store id,
        active := cfg.active.filter (fun a => a ≠ id) })
  else (false, cfg)

/-- Retention window in hours, `Config.TEMP_STORAGE_HOURS` (backend/config.py
line 76, default 24). -/
def TEMP_STORAGE_HOURS : Nat := 24

/-- The reaper's deletion test from `cleanup_old_projects` (backend/app.py
line 1047): the age since `created_at` — not since any terminal timestamp,
and with no look at the status — strictly exceeds the retention window. -/
def expired (hours now : Nat) (r : JobRec) : Bool := hours * 3600 < now - r.createdAt

/-- One sweep of `cleanup_old_projects` (backend/app.py, lines 1038-1063):
delete every expired record, and delete the directory
`PROJECT_STORAGE_PATH/<raw id>` of every expired record; the active set is
not touched. -/
def sweep (hours now : Nat) (cfg : Cfg) : Cfg :=
  { store := cfg.store.filter (fun e => !(expired hours now e.2)),
    active := cfg.active,
    dirs := cfg.dirs.filter (fun d =>
      !(cfg.store.any (fun e =>
          expired hours now e.2 && (PROJECT_STORAGE_PATH ++ "/" ++ e.1 == d)))) }

/-! ## Admission

Translated from `generate_app` (backend/app.py, lines 391-502).  The
ceiling comparison happens in one `with project_lock:` block (lines
416-422); the database insert (lines 433-444) and the second lock block
that inserts the record and registers the worker (lines 447-480) run only
afterwards, under a separate lock acquisition.  The two phases are
therefore two distinct atomic events here, and concurrent submissions may
interleave between them.
-/

/-- Concurrency ceiling, `Config.MAX_CONCURRENT_GENERATIONS`
(backend/config.py line 80, default 5); kept as a parameter `c` below. -/
def MAX_CONCURRENT_GENERATIONS : Nat := 5

/-- The submission-relevant server state: in-memory record ids, the active
set, the database rows, the ids that passed the admission check but are not
yet registered, and the queue length used for the 503 payload. -/
structure AdmCfg where
  store : List String
  active : List String
  db : List String
  pending : List String
  queueLen : Nat
deriving DecidableEq, Repr

/-- The empty server state at startup. -/
def admInit : AdmCfg := { store := [], active := [], db := [], pending := [], queueLen := 0 }

/-- The two phases of one submission: the lock-protected ceiling check
(lines 416-422) and the later registration (lines 433-480). -/
inductive AdmEv
  | check (id : String)
  | register (id : String)
deriving DecidableEq, Repr

/-- One atomic phase.  A `check` while `active` is at or over the ceiling
rejects and changes nothing; otherwise the request proceeds to pending.  A
`register` of a pending request inserts the database row, the record, and
the active-set entry. -/
def admStep (c : Nat) (cfg : AdmCfg) : AdmEv → AdmCfg
  | .check id =>
    if c ≤ cfg.active.length then cfg
    else { cfg with pending := id :: cfg.pending }
  | .register id =>
    if id ∈ cfg.pending then
      { cfg with
          pending := cfg.pending.filter (fun p => p ≠ id),
          db := id :: cfg.db,
          store := id :: cfg.store,
          active := id :: cfg.active }
    else cfg

/-- Run a list of phases from a state. -/
def admRun (c : Nat) (cfg : AdmCfg) (evs : List AdmEv) : AdmCfg :=
  evs.foldl (admStep c) cfg

/-- The 503 response of a rejected check: `queue_position` is
`len (generation_queue) + 1` (line 421); `none` when the check passes. -/
def admCheckResp (c : Nat) (cfg : AdmCfg) : Option Nat :=
  if c ≤ cfg.active.length then some (cfg.queueLen + 1) else none

/-- One submission with both phases run back to back, with no interleaving
between the check and the registration: the serialized reading of
`generate_app`. -/
def atomicSubmit (c : Nat) (cfg : AdmCfg) (id : String) : Option Nat × AdmCfg :=
  if c ≤ cfg.active.length then (some (cfg.queueLen + 1), cfg)
  else
    (none,
     { cfg with
        db := id :: cfg.db,
        store := id :: cfg.store,
        active := id :: cfg.active })

/-- Responses of the `generate_app` endpoint. -/
inductive GenResp
  | badRequest (errors : List String)
  | busy (queuePosition : Nat)
  | accepted (id : String)
deriving DecidableEq, Repr

/-- The `generate_app` endpoint in its serialized reading: validation
first — a validation failure answers 400 and touches nothing (lines
396-398) — then admission. -/
def generateAppEndpoint (c : Nat) (cfg : AdmCfg) (req : GenRequest) (newId : String) :
    GenResp × AdmCfg :=
  if validateAppInput req ≠ [] then (.badRequest (validateAppInput req), cfg)
  else
    match atomicSubmit c cfg newId with
    | (some pos, cfg2) => (.busy pos, cfg2)
    | (none, cfg2) => (.accepted newId, cfg2)

/-! ## Helper lemmas -/

/-- Concatenation of strings concatenates their character data. -/
theorem strDataAppend (a b : String) : (a ++ b).data = a.data ++ b.data := by
  cases a
  cases b
  rfl

/-- Left cancellation for string concatenation. -/
theorem strAppendCancelLeft {s a b : String} (h : s ++ a = s ++ b) : a = b := by
  have hd := congrArg String.data h
  rw [strDataAppend, strDataAppend] at hd
  have hab := List.append_cancel_left hd
  cases a
  cases b
  exact congrArg String.mk hab

/-- Looking up the cancelled store finds the record with its status set to
cancelled. -/
theorem lookup_setStatusCancelled (l : List (String × JobRec)) (id : String) :
    (setStatusCancelled l id).lookup id =
      (l.lookup id).map (fun r => { r with status := .cancelled }) := by
  induction l with
  | nil => rfl
  | cons e t ih =>
    rcases e with ⟨i, r⟩
    by_cases h : i = id
    · subst h
      simp [setStatusCancelled, List.lookup]
    · have hbe : (id == i) = false := by
        rw [beq_eq_false_iff_ne]
        exact Ne.symm h
      simp [setStatusCancelled, h, List.lookup, hbe, ih]

/-- A key absent from the key list is not found by lookup. -/
theorem lookup_none_of_not_key (l : List (String × JobRec)) (id : String)
    (h : id ∉ l.map Prod.fst) : l.lookup id = none := by
  induction l with
  | nil => rfl
  | cons e t ih =>
    rcases e with ⟨i, r⟩
    simp only [List.map_cons, List.mem_cons] at h
    push_neg at h
    have hbe : (id == i) = false := by
      rw [beq_eq_false_iff_ne]
      exact h.1
    simp [List.lookup, hbe, ih h.2]

/-- Lookup through a filter on an association list with unique keys: the
found record survives exactly when the filter keeps it. -/
theorem lookup_filter_assoc (p : String × JobRec → Bool) (l : List (String × JobRec))
    (id : String) (r : JobRec)
    (hnd : (l.map Prod.fst).Nodup) (hl : l.lookup id = some r) :
    (l.filter p).lookup id = (if p (id, r) then some r else none) := by
  induction l with
  | nil => cases hl
  | cons e t ih =>
    rcases e with ⟨i, v⟩
    simp only [List.map_cons, List.nodup_cons] at hnd
    by_cases h : id = i
    · subst h
      simp only [List.lookup, beq_self_eq_true] at hl
      have hv : v = r := by simpa using hl
      subst hv
      have hnone : ∀ m : List (String × JobRec), id ∉ m.map Prod.fst →
          (m.filter p).lookup id = none := by
        intro m hm
        apply lookup_none_of_not_key
        intro hmem
        apply hm
        rcases List.mem_map.mp hmem with ⟨e, he, hfst⟩
        exact List.mem_map.mpr ⟨e, List.mem_of_mem_filter he, hfst⟩
      by_cases hp : p (id, v)
      · simp [List.filter, hp, List.lookup]
      · simp [List.filter, hp, hnone t hnd.1]
    · have hbe : (id == i) = false := by
        rw [beq_eq_false_iff_ne]
        exact h
      have hl' : t.lookup id = some r := by
        simpa [List.lookup, hbe] using hl
      have hres := ih hnd.2 hl'
      by_cases hp : p (i, v)
      · simpa [List.filter, hp, List.lookup, hbe] using hres
      · simpa [List.filter, hp] using hres

/-! ## Claim theorems -/

/-- C3 counterexample: the input `compile error: sdk license not accepted`
matches both the license-not-accepted rule and the compilation-error rule,
yet `_analyze_gradle_error` classifies it as a compilation error — the
license rule sits eighth in the code, after the compile rule, not third as
claimed; the spec-ordered table gives the license classification instead.
Additionally the no-rule fallback returns the first qualifying line of the
last ten, not the last. -/
theorem C3_counterexample :
    (pyIn "license" (pyLower ("compile error: sdk license not accepted" ++ "")) ||
      pyIn "accept" (pyLower ("compile error: sdk license not accepted" ++ ""))) = true ∧
    (pyIn "compile" (pyLower ("compile error: sdk license not accepted" ++ "")) &&
      pyIn "error" (pyLower ("compile error: sdk license not accepted" ++ ""))) = true ∧
    analyzeGradleError "compile error: sdk license not accepted" "" =
      "Compilation error. Check your Java/Kotlin code for syntax errors." ∧
    classifyByRules specGradleRules gradleFallback "compile error: sdk license not accepted" "" =
      "Android SDK license not accepted. Run \"sdkmanager --licenses\" to accept licenses." ∧
    analyzeGradleError "compile error: sdk license not accepted" "" ≠
      classifyByRules specGradleRules gradleFallback "compile error: sdk license not accepted" "" ∧
    analyzeGradleError "aaaaaaaaaaaa\nbbbbbbbbbbbb" "" = "Build failed: aaaaaaaaaaaa" ∧
    analyzeGradleError "aaaaaaaaaaaa\nbbbbbbbbbbbb" "" ≠ "Build failed: bbbbbbbbbbbb" := by
  decide

/-- C3 amended: the build-failure classifier is an ordered, fixed-priority,
first-match-wins rule table over the lowercased stderr+stdout, but in the
order the code evaluates: environment/toolchain, SDK/platform, gradle
wrapper, compilation error, manifest, resources, dependency resolution,
license-not-accepted, filesystem permission, out-of-memory, generic
timeout; with no match it falls back to the first line among the last ten
non-empty stderr lines that is longer than ten characters and does not
start with a quiet-task marker, else a generic message.  In particular an
input matching both the license rule and the compile rule is classified as
a compilation error. -/
theorem C3_amended :
    analyzeGradleError = classifyByRules gradleRules gradleFallback := by
  funext se so
  rfl

/-- C7: the installation-failure classifier is exactly the ordered,
first-match-wins rule table in the claimed order — device offline,
insufficient storage, version downgrade, update incompatible, missing
shared library, CPU ABI mismatch, invalid APK, OS too old, OS too new,
blocked by policy, generic timeout — with a verbatim fallback drawn from
the error output; and its rule table is distinct from the build
classifier's. -/
theorem C7_install_classifier_table :
    analyzeAdbError = classifyByRules adbRules adbFallback ∧
    adbRules.map Prod.snd ≠ gradleRules.map Prod.snd := by
  constructor
  · funext se so
    rfl
  · decide

/-- C6 counterexample: against the claimed stage order (Building,
BuildingArtifact, Finalizing, Completed) the worker itself is decreasing —
it writes `finalizing` (progress 98) and then `building_apk` (progress 96);
and a terminal status is not followed only by itself or not-found: `cancel`
on a completed job overwrites the terminal `completed` with `cancelled`. -/
theorem C6_counterexample :
    (workerStatusSeq false "p" (mkJob 0)).get? 8 = some PStatus.finalizing ∧
    (workerStatusSeq false "p" (mkJob 0)).get? 9 = some PStatus.building_apk ∧
    specRank PStatus.building_apk < specRank PStatus.finalizing ∧
    ((Cfg.mk [("j", { mkJob 0 with status := .completed, progress := 100, pc := 10 })] [] []).store.lookup "j").map
        JobRec.status = some PStatus.completed ∧
    (((cancelStep (Cfg.mk [("j", { mkJob 0 with status := .completed, progress := 100, pc := 10 })] [] []) "j").2.store.lookup
          "j").map JobRec.status = some PStatus.cancelled) ∧
    PStatus.completed.isTerminal = true ∧
    PStatus.cancelled ≠ PStatus.completed := by
  decide

/-- C6 amended: the poll-observable status sequence of one uninterrupted,
exception-free worker run is non-decreasing along the order the code
actually executes — Queued, Analyzing, Planning, Scaffolding, GeneratingUI,
GeneratingLogic, IntegratingFeatures, Building, Finalizing,
BuildingArtifact, Completed (Finalizing and BuildingArtifact swapped
relative to the claim) — and Completed is its only terminal status,
appearing exactly once, at the end.  Cancellation is not covered: the code
may overwrite any status, terminal ones included, with Cancelled, and a
cancelled job's still-running worker overwrites Cancelled again. -/
theorem C6_amended (b : Bool) (pp : String) (t : Nat) :
    ranksNonDecreasing codeRank (workerStatusSeq b pp (mkJob t)) = true ∧
    (workerStatusSeq b pp (mkJob t)).count PStatus.completed = 1 ∧
    (workerStatusSeq b pp (mkJob t)).getLast? = some PStatus.completed ∧
    ∀ s ∈ workerStatusSeq b pp (mkJob t), s.isTerminal = true → s = PStatus.completed := by
  have h : workerStatusSeq b pp (mkJob t) =
      [.queued, .analyzing, .planning, .generating_structure, .generating_ui,
       .generating_logic, .integrating_features, .building, .finalizing, .building_apk,
       .completed] := by
    simp [workerStatusSeq, iterApply, applyWork, mkJob, stageUpdates]
  rw [h]
  refine ⟨by decide, by decide, by decide, by decide⟩

/-- C1: whenever the build fails — missing `gradlew` entry point, a
non-zero exit, a timeout or exception (`run = none`), or a zero exit with
the output APK absent — `build_apk` returns false, and the worker still
completes the job: final status `completed` (not `error`), progress 100,
`apkReady = false`, `apkPath = none`, with the generated source tree path
still delivered in the result; the run passes through the `building`
stage. -/
theorem C1_build_failure_still_completes (env : BuildEnv) (pp : String) (t : Nat)
    (h : ¬ (env.gradlewExists = true ∧ env.run = some (0, true))) :
    build_apk env = false ∧
    (runWorker (build_apk env) pp (mkJob t)).status = PStatus.completed ∧
    (runWorker (build_apk env) pp (mkJob t)).status ≠ PStatus.error ∧
    (runWorker (build_apk env) pp (mkJob t)).progress = 100 ∧
    (runWorker (build_apk env) pp (mkJob t)).apkReady = some false ∧
    (runWorker (build_apk env) pp (mkJob t)).apkPath = none ∧
    (runWorker (build_apk env) pp (mkJob t)).projectPath = some pp ∧
    PStatus.building ∈ workerStatusSeq (build_apk env) pp (mkJob t) := by
  have hb : build_apk env = false := by
    rcases env with ⟨g, r⟩
    cases g
    · rfl
    · cases r with
      | none => rfl
      | some p =>
        rcases p with ⟨rc, ap⟩
        by_cases hrc : rc = 0
        · cases ap
          · simp [build_apk, hrc]
          · exact absurd ⟨rfl, by rw [hrc]⟩ h
        · simp [build_apk, hrc]
  rw [hb]
  have hr : runWorker false pp (mkJob t) =
      { status := .completed, progress := 100, createdAt := t,
        apkReady := some false, apkPath := none, projectPath := some pp, pc := 10 } := by
    simp [runWorker, applyN, applyWork, mkJob, stageUpdates]
  have hs : workerStatusSeq false pp (mkJob t) =
      [.queued, .analyzing, .planning, .generating_structure, .generating_ui,
       .generating_logic, .integrating_features, .building, .finalizing, .building_apk,
       .completed] := by
    simp [workerStatusSeq, iterApply, applyWork, mkJob, stageUpdates]
  rw [hr, hs]
  exact ⟨rfl, rfl, by simp, rfl, rfl, rfl, rfl, by decide⟩

/-- C1 witness: the concrete environment with no `gradlew` at all. -/
theorem C1_witness :
    build_apk ⟨false, none⟩ = false ∧
    (runWorker (build_apk ⟨false, none⟩) "proj" (mkJob 0)).status = PStatus.completed ∧
    (runWorker (build_apk ⟨false, none⟩) "proj" (mkJob 0)).status ≠ PStatus.error ∧
    (runWorker (build_apk ⟨false, none⟩) "proj" (mkJob 0)).progress = 100 ∧
    (runWorker (build_apk ⟨false, none⟩) "proj" (mkJob 0)).apkReady = some false ∧
    (runWorker (build_apk ⟨false, none⟩) "proj" (mkJob 0)).apkPath = none ∧
    (runWorker (build_apk ⟨false, none⟩) "proj" (mkJob 0)).projectPath = some "proj" ∧
    PStatus.building ∈ workerStatusSeq (build_apk ⟨false, none⟩) "proj" (mkJob 0) :=
  C1_build_failure_still_completes ⟨false, none⟩ "proj" 0 (by decide)

/-- C4 counterexample: `cancel` on a job already in the terminal status
`completed` is not a no-op — the endpoint answers success and overwrites
the record's status with `cancelled`, changing the stored record. -/
theorem C4_counterexample :
    PStatus.completed.isTerminal = true ∧
    (cancelStep (Cfg.mk [("t", { mkJob 0 with status := .completed, progress := 100, pc := 10 })] [] []) "t").1 = true ∧
    ((cancelStep (Cfg.mk [("t", { mkJob 0 with status := .completed, progress := 100, pc := 10 })] [] []) "t").2.store.lookup
        "t").map JobRec.status = some PStatus.cancelled ∧
    (cancelStep (Cfg.mk [("t", { mkJob 0 with status := .completed, progress := 100, pc := 10 })] [] []) "t").2 ≠
      Cfg.mk [("t", { mkJob 0 with status := .completed, progress := 100, pc := 10 })] [] [] := by
  decide

/-- C4 amended: `cancel` on an unknown id answers not-found and changes
nothing; `cancel` on any known job — terminal or not, with no status
check — answers success, sets the job's status to `cancelled`, and removes
the id from the active set. -/
theorem C4_amended (cfg : Cfg) (id : String) :
    (cfg.store.lookup id = none → cancelStep cfg id = (false, cfg)) ∧
    (∀ r, cfg.store.lookup id = some r →
      (cancelStep cfg id).1 = true ∧
      (cancelStep cfg id).2.store.lookup id = some { r with status := .cancelled } ∧
      id ∉ (cancelStep cfg id).2.active ∧
      (cancelStep cfg id).2.dirs = cfg.dirs) := by
  constructor
  · intro hnone
    simp [cancelStep, hnone]
  · intro r hr
    have hsome : (cfg.store.lookup id).isSome := by simp [hr]
    refine ⟨by simp [cancelStep, hsome], ?_, ?_, by simp [cancelStep, hsome]⟩
    · simp [cancelStep, hsome, lookup_setStatusCancelled, hr]
    · simp [cancelStep, hsome, List.mem_filter]

/-- C4 witness: cancelling a known queued job at a concrete store. -/
theorem C4_witness :
    (cancelStep (Cfg.mk [("k", mkJob 0)] ["k"] []) "k").1 = true ∧
    (cancelStep (Cfg.mk [("k", mkJob 0)] ["k"] []) "k").2.store.lookup "k" =
      some { mkJob 0 with status := .cancelled } ∧
    "k" ∉ (cancelStep (Cfg.mk [("k", mkJob 0)] ["k"] []) "k").2.active ∧
    (cancelStep (Cfg.mk [("k", mkJob 0)] ["k"] []) "k").2.dirs = [] ∧
    (cancelStep (Cfg.mk [("x", mkJob 0)] [] []) "k").2.store.lookup "k" = none := by
  have h := (C4_amended (Cfg.mk [("k", mkJob 0)] ["k"] []) "k").2 (mkJob 0) rfl
  exact ⟨h.1, h.2.1, h.2.2.1, h.2.2.2, by decide⟩

/-- C5 counterexample: a sweep deletes a job that is still running — status
`analyzing`, not terminal — because its creation time, not any terminal
timestamp, is older than the retention window; the claim says such a job
survives untouched. -/
theorem C5_counterexample :
    PStatus.analyzing.isTerminal = false ∧
    (sweep 24 90000 (Cfg.mk [("j", { mkJob 0 with status := .analyzing, progress := 15, pc := 1 })] ["j"]
        ["generated_apps/j"])).store.lookup "j" = none ∧
    (sweep 24 90000 (Cfg.mk [("j", { mkJob 0 with status := .analyzing, progress := 15, pc := 1 })] ["j"]
        ["generated_apps/j"])).dirs = [] := by
  decide

/-- C5 amended: a sweep deletes a job record iff the age since its
`created_at` — whatever its status, terminal or not — strictly exceeds the
retention window; the active set is untouched. -/
theorem C5_amended (hours now : Nat) (cfg : Cfg) (id : String) (r : JobRec)
    (hnd : (cfg.store.map Prod.fst).Nodup) (hl : cfg.store.lookup id = some r) :
    (sweep hours now cfg).store.lookup id =
      (if hours * 3600 < now - r.createdAt then none else some r) ∧
    (sweep hours now cfg).active = cfg.active := by
  constructor
  · have h := lookup_filter_assoc (fun e => !(expired hours now e.2)) cfg.store id r hnd hl
    rw [sweep] at *
    simp only [expired] at h ⊢
    rw [h]
    by_cases hc : hours * 3600 < now - r.createdAt
    · simp [hc]
    · simp [hc]
  · rfl

/-- C5 witness: a job created 50 seconds before a sweep at `now = 100`
survives the 24-hour window. -/
theorem C5_witness :
    (sweep 24 100 (Cfg.mk [("j", mkJob 50)] [] [])).store.lookup "j" = some (mkJob 50) ∧
    (sweep 24 100 (Cfg.mk [("j", mkJob 50)] [] [])).active = [] := by
  have h := C5_amended 24 100 (Cfg.mk [("j", mkJob 50)] [] []) "j" (mkJob 50) (by decide) rfl
  refine ⟨?_, h.2⟩
  rw [h.1]
  decide

/-- C2 counterexample: with ceiling 1, two submissions that both pass the
admission check (each under its own lock acquisition, as in the code)
before either registers reach a state with two simultaneously active,
non-terminal jobs — the ceiling does not bound every reachable state. -/
theorem C2_counterexample :
    (admRun 1 admInit [.check "a", .check "b", .register "a", .register "b"]).active.length = 2 ∧
    (admRun 1 admInit [.check "a", .check "b", .register "a", .register "b"]).store.length = 2 ∧
    1 < 2 := by
  decide

/-- C2 amended: a check arriving while the active count is at or over the
ceiling answers 503 with queue position `queueLen + 1` and leaves the
store, the active set, the database, and the pending set unchanged; and
when every submission runs its check and registration atomically — with no
other submission interleaved between the two lock acquisitions — the
active count never exceeds the ceiling.  The code performs the two phases
under separate lock acquisitions, so the interleaved bound fails
(`C2_counterexample`). -/
theorem C2_amended (c : Nat) (cfg : AdmCfg) (id : String) (h : c ≤ cfg.active.length) :
    admCheckResp c cfg = some (cfg.queueLen + 1) ∧
    admStep c cfg (.check id) = cfg ∧
    atomicSubmit c cfg id = (some (cfg.queueLen + 1), cfg) ∧
    (∀ cfg2 id2, cfg2.active.length ≤ c → (atomicSubmit c cfg2 id2).2.active.length ≤ c) := by
  refine ⟨by simp [admCheckResp, h], by simp [admStep, h], by simp [atomicSubmit, h], ?_⟩
  intro cfg2 id2 h2
  by_cases hc : c ≤ cfg2.active.length
  · simpa [atomicSubmit, hc] using h2
  · push_neg at hc
    simp only [atomicSubmit, if_neg (not_le.mpr hc)]
    simpa using hc

/-- C2 witness: a check at ceiling 0 on the empty state is rejected with
queue position 1 and changes nothing. -/
theorem C2_witness :
    admCheckResp 0 admInit = some 1 ∧
    admStep 0 admInit (.check "x") = admInit ∧
    atomicSubmit 0 admInit "x" = (some 1, admInit) := by
  have h := C2_amended 0 admInit "x" (Nat.le_refl 0)
  exact ⟨h.1, h.2.1, h.2.2.1⟩

/-- C8 counterexample: two distinct job ids agreeing on their first eight
characters yield the same artifact path for the same submitted app name —
the folder name uses only `project_id [:8]`, so the map from (app name,
job id) to path is not injective. -/
theorem C8_counterexample :
    "aaaaaaaa-1111-1111-1111-111111111111" ≠ "aaaaaaaa-2222-2222-2222-222222222222" ∧
    projectPathOf "MyApp" "aaaaaaaa-1111-1111-1111-111111111111" =
      projectPathOf "MyApp" "aaaaaaaa-2222-2222-2222-222222222222" := by
  decide

/-- C8 amended: the derived artifact path separates two jobs with the same
submitted app name only when their ids differ within the first eight
characters; when the sanitized app name is empty the full id is used and
the path is injective in the id. -/
theorem C8_amended (appName i1 i2 : String) (h : takeChars 8 i1 ≠ takeChars 8 i2) :
    projectPathOf appName i1 ≠ projectPathOf appName i2 ∧
    (safeAppName appName = "" →
      ∀ j1 j2 : String, projectPathOf appName j1 = projectPathOf appName j2 → j1 = j2) := by
  constructor
  · intro heq
    have hf : folderName appName i1 = folderName appName i2 := strAppendCancelLeft heq
    by_cases hn : safeAppName appName = ""
    · have hi : i1 = i2 := by simpa [folderName, hn] using hf
      exact h (by rw [hi])
    · have hf2 : safeAppName appName ++ "_" ++ takeChars 8 i1 =
          safeAppName appName ++ "_" ++ takeChars 8 i2 := by
        simpa [folderName, hn] using hf
      exact h (strAppendCancelLeft hf2)
  · intro hn j1 j2 heq
    have hf : folderName appName j1 = folderName appName j2 := strAppendCancelLeft heq
    simpa [folderName, hn] using hf

/-- C8 witness: ids that differ inside the first eight characters do get
distinct paths. -/
theorem C8_witness :
    projectPathOf "MyApp" "abcd1234-0000" ≠ projectPathOf "MyApp" "wxyz9876-0000" :=
  (C8_amended "MyApp" "abcd1234-0000" "wxyz9876-0000" (by decide)).1

/-- C9: a request with language `kotlin` passes input validation, yet the
generator silently replaces the language with `java` before any file is
created — the config handed to `create_project_structure` and the returned
result both report `java`. -/
theorem C9_kotlin_silently_java (analysisName architecture uiFramework projectPath : String) :
    (generateFromIdea analysisName "kotlin" architecture uiFramework projectPath).language = "java" ∧
    (generateFromIdea analysisName "kotlin" architecture uiFramework projectPath).configLanguage =
      "java" ∧
    validateAppInput
        { idea := some "a note taking app with tags", language := some "kotlin",
          theme := some "light" } = [] := by
  exact ⟨rfl, rfl, by decide⟩

/-- C10: validation accepts exactly the requests whose stripped idea is
non-empty, at least 10 and at most 1000 characters long, whose lowercased
language is java or kotlin, and whose lowercased theme is light, dark or
auto; and whenever validation reports errors the endpoint answers 400 with
those errors and leaves the server state — store, active set, database —
unchanged. -/
theorem C10_validation_gate (d : GenRequest) (c : Nat) (cfg : AdmCfg) (newId : String) :
    (validateAppInput d = [] ↔
      (pyStrip (d.idea.getD "") ≠ "" ∧
       ¬ (pyStrip (d.idea.getD "")).length < 10 ∧
       ¬ 1000 < (pyStrip (d.idea.getD "")).length ∧
       pyLower (d.language.getD "java") ∈ (["java", "kotlin"] : List String) ∧
       pyLower (d.theme.getD "light") ∈ (["light", "dark", "auto"] : List String))) ∧
    (validateAppInput d ≠ [] →
      generateAppEndpoint c cfg d newId = (.badRequest (validateAppInput d), cfg)) := by
  constructor
  · unfold validateAppInput
    dsimp only
    split_ifs <;> simp_all
  · intro h
    simp [generateAppEndpoint, h]

/-- C10 witness: a five-character idea is rejected with 400 and the state
is unchanged; a well-formed request validates cleanly. -/
theorem C10_witness :
    generateAppEndpoint 5 admInit
        { idea := some "short", language := some "java", theme := some "light" } "id1" =
      (.badRequest ["Uygulama fikri en az 10 karakter olmalı"], admInit) ∧
    validateAppInput
        { idea := some "a recipe collection app", language := some "java",
          theme := some "dark" } = [] := by
  constructor
  · have h := (C10_validation_gate
      { idea := some "short", language := some "java", theme := some "light" } 5 admInit "id1").2
      (by decide)
    rw [h]
    decide
  · decide

/-- C6 witness: the amended worker-sequence properties at a concrete run,
with the inner terminal-status implication discharged at `completed`. -/
theorem C6_witness :
    ranksNonDecreasing codeRank (workerStatusSeq true "p" (mkJob 0)) = true ∧
    (workerStatusSeq true "p" (mkJob 0)).count PStatus.completed = 1 ∧
    (workerStatusSeq true "p" (mkJob 0)).getLast? = some PStatus.completed ∧
    PStatus.completed = PStatus.completed := by
  have h := C6_amended true "p" 0
  exact ⟨h.1, h.2.1, h.2.2.1, h.2.2.2 PStatus.completed (by decide) (by decide)⟩
